import Mathlib

/-!
Verification of the health-education-extractor content pipeline.

Python strings are modelled as `List Char`; Python floats as `ℚ` (the score
arithmetic in the source only adds, multiplies, divides and compares, so exact
rational arithmetic is the faithful idealization); fallible operations (the
database corpus read, the sklearn vectorizer call, the Gemini summarization
oracle) are modelled as `Except`/`Option` valued inputs, and the source's
`try/except` handlers are explicit `match`es on those values.

Sources embedded here:
  - backend/app/services/content_chunker.py   (ContentChunker)
  - backend/app/services/gemini_summarizer.py (reading level, batch summarize)
  - backend/app/services/duplicate_detector.py (DuplicateDetector)
  - backend/app/api/v1/pdf_processing.py      (process_pdf_background)
-/

namespace HealthExtractor

/-! ## Python string primitives on `List Char` -/

/-- Python `str.split()` (no argument): split on runs of whitespace, no empty
pieces.  `wordsAux l cur` scans `l` with the current (reversed) word `cur`. -/
def wordsAux : List Char → List Char → List (List Char)
  | [], cur => if cur.isEmpty then [] else [cur.reverse]
  | c :: cs, cur =>
    if c.isWhitespace then
      if cur.isEmpty then wordsAux cs [] else cur.reverse :: wordsAux cs []
    else wordsAux cs (c :: cur)

/-- Python `str.split()`. -/
def pyWords (l : List Char) : List (List Char) := wordsAux l []

/-- Python `len(s.split())`. -/
def wordCount (l : List Char) : Nat := (pyWords l).length

/-- Python `str.lower()` (ASCII idealization). -/
def pyLower (l : List Char) : List Char := l.map Char.toLower

/-- Python `str.strip()`: drop whitespace from both ends. -/
def pyStrip (l : List Char) : List Char :=
  ((l.dropWhile Char.isWhitespace).reverse.dropWhile Char.isWhitespace).reverse

/-- Boolean infix test (Python `needle in hay` on strings). -/
def containsSub (needle hay : List Char) : Bool :=
  (List.range (hay.length + 1)).any fun i => needle.isPrefixOf (hay.drop i)

theorem wordsAux_append_ws (w : Char) (hw : w.isWhitespace = true) :
    ∀ (a b cur : List Char),
      wordsAux (a ++ w :: b) cur = wordsAux a cur ++ wordsAux b []
  | [], b, cur => by
    simp only [List.nil_append, wordsAux, hw, if_true]
    by_cases h : cur.isEmpty <;> simp [h, wordsAux]
  | c :: cs, b, cur => by
    simp only [List.cons_append, wordsAux]
    by_cases h : c.isWhitespace
    · simp only [h, if_true]
      by_cases h2 : cur.isEmpty <;>
        simp [h2, wordsAux_append_ws w hw cs b]
    · simp [h, wordsAux_append_ws w hw cs b (c :: cur)]

theorem pyWords_append_ws {w : Char} (hw : w.isWhitespace = true)
    (a b : List Char) : pyWords (a ++ w :: b) = pyWords a ++ pyWords b :=
  wordsAux_append_ws w hw a b []

theorem pyWords_ws_cons {w : Char} (hw : w.isWhitespace = true) (b : List Char) :
    pyWords (w :: b) = pyWords b := by
  simp [pyWords, wordsAux, hw]

theorem pyWords_allws {t : List Char} (h : ∀ c ∈ t, c.isWhitespace = true) :
    pyWords t = [] := by
  induction t with
  | nil => rfl
  | cons c cs ih =>
    rw [pyWords_ws_cons (h c (List.mem_cons_self c cs))]
    exact ih fun x hx => h x (List.mem_cons_of_mem c hx)

theorem pyWords_append_allws {t : List Char} (a : List Char)
    (h : ∀ c ∈ t, c.isWhitespace = true) : pyWords (a ++ t) = pyWords a := by
  cases t with
  | nil => simp
  | cons w t1 =>
    rw [pyWords_append_ws (h w (List.mem_cons_self w t1)),
      pyWords_allws fun x hx => h x (List.mem_cons_of_mem w hx), List.append_nil]

theorem pyWords_dropWhile_ws (l : List Char) :
    pyWords (l.dropWhile Char.isWhitespace) = pyWords l := by
  induction l with
  | nil => rfl
  | cons c cs ih =>
    by_cases h : c.isWhitespace
    · rw [List.dropWhile_cons_of_pos h, ih, pyWords_ws_cons h]
    · rw [List.dropWhile_cons_of_neg h]

theorem pyWords_pyStrip (l : List Char) : pyWords (pyStrip l) = pyWords l := by
  rw [← pyWords_dropWhile_ws l]
  set m := l.dropWhile Char.isWhitespace with hm
  have hsplit : m.reverse.takeWhile Char.isWhitespace ++
      m.reverse.dropWhile Char.isWhitespace = m.reverse :=
    List.takeWhile_append_dropWhile Char.isWhitespace m.reverse
  have hmdecomp : m = (m.reverse.dropWhile Char.isWhitespace).reverse ++
      (m.reverse.takeWhile Char.isWhitespace).reverse := by
    have := congrArg List.reverse hsplit
    rw [List.reverse_append, List.reverse_reverse] at this
    exact this.symm
  have hws : ∀ c ∈ (m.reverse.takeWhile Char.isWhitespace).reverse,
      c.isWhitespace = true := by
    intro c hc
    exact List.mem_takeWhile_imp (List.mem_reverse.mp hc)
  calc pyWords (pyStrip l)
      = pyWords ((m.reverse.dropWhile Char.isWhitespace).reverse ++
          (m.reverse.takeWhile Char.isWhitespace).reverse) :=
        (pyWords_append_allws _ hws).symm
    _ = pyWords m := by rw [← hmdecomp]

theorem wordCount_pyStrip (l : List Char) : wordCount (pyStrip l) = wordCount l := by
  simp [wordCount, pyWords_pyStrip]

theorem wordCount_join_para (a b : List Char) :
    wordCount (a ++ '\n' :: '\n' :: b) = wordCount a + wordCount b := by
  have h1 : ('\n' : Char).isWhitespace = true := rfl
  have := pyWords_append_ws h1 a ('\n' :: b)
  rw [wordCount, this, pyWords_ws_cons h1]
  simp [wordCount]

end HealthExtractor

namespace HealthExtractor

/-! ## ContentChunker (content_chunker.py) -/

/-- Helper for termination proofs: `dropWhile` never lengthens a list. -/
theorem dropWhile_len_le (p : Char → Bool) (l : List Char) :
    (l.dropWhile p).length ≤ l.length :=
  List.Sublist.length_le (List.dropWhile_sublist p : (l.dropWhile p).Sublist l)

/-- Embedding of `re.sub(r'\s+', ' ', text)`: every maximal whitespace run is
replaced by a single space.  The Bool argument records whether the scan is
inside a whitespace run (structural recursion so the kernel can evaluate it). -/
def collapseWsAux : List Char → Bool → List Char
  | [], _ => []
  | c :: cs, inRun =>
    if c.isWhitespace then
      if inRun then collapseWsAux cs true else ' ' :: collapseWsAux cs true
    else c :: collapseWsAux cs false

def collapseWs (l : List Char) : List Char := collapseWsAux l false

/-- Embedding of `re.match(r'^\d+\s*$', line)` as a Bool: a nonempty digit
prefix followed only by whitespace. -/
def isNumericLine (l : List Char) : Bool :=
  !(l.takeWhile Char.isDigit).isEmpty &&
    (l.dropWhile Char.isDigit).all Char.isWhitespace

/-- Tail language `\s*\d*\s*$` of the header/footer regex. -/
def wsDigitsWs (r : List Char) : Bool :=
  ((r.dropWhile Char.isWhitespace).dropWhile Char.isDigit).all Char.isWhitespace

/-- Embedding of `re.match(r'^(page|chapter|\d+)\s*\d*\s*$', line, re.IGNORECASE)`. -/
def matchesPageHeader (l : List Char) : Bool :=
  let low := pyLower l
  (("page".toList.isPrefixOf low) && wsDigitsWs (low.drop 4)) ||
  (("chapter".toList.isPrefixOf low) && wsDigitsWs (low.drop 7)) ||
  (!(low.takeWhile Char.isDigit).isEmpty && wsDigitsWs (low.dropWhile Char.isDigit))

/-- Python `' '.join(lines)`. -/
def joinSpace (ls : List (List Char)) : List Char := List.intercalate [' '] ls

/-- Embedding of `ContentChunker._clean_text`.  Note the source collapses ALL
whitespace (newlines included) to single spaces BEFORE splitting on newlines,
so the per-line filtering below acts on the whole page as one line. -/
def cleanText (text : List Char) : List Char :=
  if text.isEmpty then []
  else
    let collapsed := collapseWs text
    let lines := collapsed.splitOn '\n'
    let cleaned_lines := lines.filterMap fun line0 =>
      let line := pyStrip line0
      if line.length < 10 then none
      else if isNumericLine line then none
      else if matchesPageHeader line then none
      else some line
    joinSpace cleaned_lines

/-- Embedding of `re.split(r'\n\s*\n', text)`: a separator starts at a newline
whose following maximal whitespace run contains another newline; the greedy
`\s*` ends just before the last such newline.  The `Nat` argument is fuel
(each step consumes at least one character, so `length + 1` fuel suffices);
fuel keeps the recursion structural so the kernel can evaluate it. -/
def splitParasAux : Nat → List Char → List Char → List (List Char)
  | 0, _, acc => [acc.reverse]
  | _ + 1, [], acc => [acc.reverse]
  | fuel + 1, c :: rest, acc =>
    if c = '\n' && '\n' ∈ rest.takeWhile Char.isWhitespace then
      let run := rest.takeWhile Char.isWhitespace
      let k := run.length - 1 - (run.reverse.indexOf '\n')
      acc.reverse :: splitParasAux fuel (rest.drop (k + 1)) []
    else splitParasAux fuel rest (c :: acc)

def splitParas (text : List Char) : List (List Char) :=
  splitParasAux (text.length + 1) text []

def isSentencePunct (c : Char) : Bool := c = '.' || c = '!' || c = '?'

/-- Embedding of `re.split(r'[.!?]+\s+', para)`: a separator is a maximal
punctuation run immediately followed by at least one whitespace character.
Fuel-structured like `splitParasAux`. -/
def splitSentencesAux : Nat → List Char → List Char → List (List Char)
  | 0, _, acc => [acc.reverse]
  | _ + 1, [], acc => [acc.reverse]
  | fuel + 1, c :: rest, acc =>
    if isSentencePunct c then
      let punct := rest.takeWhile isSentencePunct
      let after := rest.drop punct.length
      if (after.head?.map Char.isWhitespace).getD false then
        acc.reverse :: splitSentencesAux fuel (after.dropWhile Char.isWhitespace) []
      else splitSentencesAux fuel rest (c :: acc)
    else splitSentencesAux fuel rest (c :: acc)

def splitSentences (para : List Char) : List (List Char) :=
  splitSentencesAux (para.length + 1) para []

/-- Embedding of `ContentChunker._split_into_paragraphs`. -/
def splitIntoParagraphs (target_chunk_size : Nat) (text : List Char) : List (List Char) :=
  let paragraphs := splitParas text
  paragraphs.foldl (fun final_paragraphs para0 =>
    let para := pyStrip para0
    if para.isEmpty then final_paragraphs
    else if target_chunk_size < wordCount para then
      let sentences := splitSentences para
      let step := sentences.foldl
        (fun (st : List (List Char) × List Char × Nat) sentence =>
          let acc := st.1
          let current_para := st.2.1
          let current_words := st.2.2
          let sentence_words := wordCount sentence
          if target_chunk_size < current_words + sentence_words ∧ 0 < current_words then
            (if ¬(pyStrip current_para).isEmpty then acc ++ [pyStrip current_para] else acc,
             sentence, sentence_words)
          else
            (acc,
             if ¬current_para.isEmpty then current_para ++ '.' :: ' ' :: sentence else sentence,
             current_words + sentence_words))
        ([], [], 0)
      final_paragraphs ++
        (if ¬(pyStrip step.2.1).isEmpty then step.1 ++ [pyStrip step.2.1] else step.1)
    else final_paragraphs ++ [para]) []

structure ContentChunk where
  chunk_id : String
  pdf_document_id : String
  page_number : Nat
  chunk_index : Nat
  content : List Char
  word_count : Nat
deriving DecidableEq

/-- Embedding of `ContentChunker.__init__`: `target or settings.chunk_size_words`
(Python `or` treats 0 as falsy), `min = max(50, target // 4)`, `max = 2 * target`. -/
structure ChunkerConfig where
  target_chunk_size : Nat
  min_chunk_size : Nat
  max_chunk_size : Nat
deriving DecidableEq

def ChunkerConfig.init (target_chunk_size : Option Nat) (settings_chunk_size_words : Nat) :
    ChunkerConfig :=
  let t := match target_chunk_size with
    | none => settings_chunk_size_words
    | some n => if n = 0 then settings_chunk_size_words else n
  { target_chunk_size := t, min_chunk_size := max 50 (t / 4), max_chunk_size := t * 2 }

/-- Embedding of `ContentChunker._create_chunk` (the `chunk_type` and
`medical_keywords` annotations are not referred to by any claim and are
projected away). -/
def createChunk (content : List Char) (chunk_index : Nat) (page_number : Nat)
    (pdf_document_id : String) : ContentChunk :=
  { chunk_id := pdf_document_id ++ "_chunk_" ++ toString chunk_index
    pdf_document_id := pdf_document_id
    page_number := page_number
    chunk_index := chunk_index
    content := content
    word_count := wordCount content }

/-- The paragraph-accumulation loop of `ContentChunker._chunk_page_content`
(lines 136-171 of content_chunker.py), one recursive step per paragraph. -/
def chunkLoop (cfg : ChunkerConfig) (page_number : Nat) (docId : String) :
    List (List Char) → List Char → Nat → Nat → List ContentChunk
  | [], current_chunk, current_word_count, chunk_index =>
    if ¬(pyStrip current_chunk).isEmpty ∧ cfg.min_chunk_size ≤ current_word_count then
      [createChunk (pyStrip current_chunk) chunk_index page_number docId]
    else []
  | paragraph :: ps, current_chunk, current_word_count, chunk_index =>
    let paragraph_words := wordCount paragraph
    if cfg.max_chunk_size < current_word_count + paragraph_words ∧
        cfg.min_chunk_size ≤ current_word_count then
      if ¬(pyStrip current_chunk).isEmpty then
        createChunk (pyStrip current_chunk) chunk_index page_number docId ::
          chunkLoop cfg page_number docId ps paragraph paragraph_words (chunk_index + 1)
      else chunkLoop cfg page_number docId ps paragraph paragraph_words chunk_index
    else
      let cc := if ¬current_chunk.isEmpty then current_chunk ++ '\n' :: '\n' :: paragraph
        else paragraph
      chunkLoop cfg page_number docId ps cc (current_word_count + paragraph_words) chunk_index

/-- Embedding of `ContentChunker._chunk_page_content`. -/
def chunkPageContent (cfg : ChunkerConfig) (text : List Char) (page_number : Nat)
    (pdf_document_id : String) (start_chunk_index : Nat) : List ContentChunk :=
  if text.isEmpty ∨ (pyStrip text).length < cfg.min_chunk_size then []
  else
    chunkLoop cfg page_number pdf_document_id
      (splitIntoParagraphs cfg.target_chunk_size (cleanText text)) [] 0 start_chunk_index

end HealthExtractor

namespace HealthExtractor

/-! ## Claim C1: emitted chunks respect the minimum word count -/

theorem chunkLoop_min_word_count (cfg : ChunkerConfig) (pn : Nat) (docId : String) :
    ∀ (ps : List (List Char)) (cur : List Char) (cnt idx : Nat),
      cnt = wordCount cur →
      ∀ c ∈ chunkLoop cfg pn docId ps cur cnt idx, cfg.min_chunk_size ≤ c.word_count := by
  intro ps
  induction ps with
  | nil =>
    intro cur cnt idx hinv c hc
    simp only [chunkLoop] at hc
    split at hc
    · rename_i h
      rcases List.mem_singleton.mp hc with rfl
      simpa [createChunk, wordCount_pyStrip, ← hinv] using h.2
    · simp at hc
  | cons p ps ih =>
    intro cur cnt idx hinv c hc
    simp only [chunkLoop] at hc
    split at hc
    · rename_i h
      split at hc
      · rcases List.mem_cons.mp hc with rfl | hmem
        · simpa [createChunk, wordCount_pyStrip, ← hinv] using h.2
        · exact ih p (wordCount p) (idx + 1) rfl c hmem
      · exact ih p (wordCount p) idx rfl c hc
    · refine ih _ _ idx ?_ c hc
      split
      · rw [wordCount_join_para, hinv]
      · rename_i hne
        have hnil : cur = [] := by
          cases cur with
          | nil => rfl
          | cons x xs => simp at hne
        subst hnil
        rw [hinv]
        exact Nat.zero_add _

/-- C1: for every page text and chunker configuration, every chunk emitted by
`chunkPageContent` (the embedding of `ContentChunker._chunk_page_content`) has
`word_count ≥ min_chunk_size`; in particular, when a page's trailing
accumulated text is below the minimum, no chunk is emitted from it. -/
theorem C1_chunk_min_word_count (cfg : ChunkerConfig) (text : List Char)
    (page_number : Nat) (docId : String) (start_index : Nat) :
    ∀ c ∈ chunkPageContent cfg text page_number docId start_index,
      cfg.min_chunk_size ≤ c.word_count := by
  intro c hc
  unfold chunkPageContent at hc
  split at hc
  · simp at hc
  · exact chunkLoop_min_word_count cfg page_number docId _ [] 0 start_index rfl c hc

def c1Cfg : ChunkerConfig := ⟨6, 2, 12⟩

def c1Chunk : ContentChunk := createChunk "aa bb cc dd".toList 0 1 "d"

/-- Witness for C1: a concrete page producing one chunk of 4 words with
`min_chunk_size = 2`. -/
theorem C1_chunk_min_word_count_witness : 2 ≤ c1Chunk.word_count :=
  C1_chunk_min_word_count c1Cfg "aa bb cc dd".toList 1 "d" 0 c1Chunk (by decide)

end HealthExtractor

namespace HealthExtractor

/-! ## Relevance scoring (`ContentChunker._calculate_relevance_score`) -/

/-- Python `keyword in content_lower` (substring test). -/
def kwIn (k : String) (hay : List Char) : Bool := containsSub k.toList hay

/-- The `self.health_keywords` lexicon of `ContentChunker.__init__`. -/
def health_keywords : List (String × List String) :=
  [("conditions",
    ["diabetes", "hypertension", "blood pressure", "heart disease",
     "kidney disease", "chronic", "condition", "disease", "disorder",
     "syndrome", "illness", "medical", "health", "clinical",
     "obesity", "overweight", "obese", "weight gain", "excess weight",
     "body mass index", "bmi", "morbid obesity", "weight problem"]),
   ("treatments",
    ["medication", "medicine", "treatment", "therapy", "prescription",
     "drug", "dose", "dosage", "pills", "tablets", "injection",
     "weight loss surgery", "bariatric surgery", "gastric bypass",
     "weight management", "weight loss program"]),
   ("symptoms",
    ["symptoms", "signs", "pain", "ache", "fever", "fatigue",
     "nausea", "dizziness", "shortness of breath", "chest pain",
     "joint pain", "back pain", "sleep apnea", "snoring"]),
   ("lifestyle",
    ["diet", "nutrition", "exercise", "physical activity", "weight",
     "lifestyle", "eating", "food", "salt", "sodium", "calories",
     "weight loss", "healthy weight", "portion control", "portion size",
     "calorie counting", "meal planning", "healthy eating", "balanced diet",
     "weight management", "fitness", "cardio", "strength training"]),
   ("care",
    ["doctor", "physician", "nurse", "healthcare", "hospital",
     "clinic", "appointment", "checkup", "monitoring", "care",
     "nutritionist", "dietitian", "weight counselor", "fitness trainer",
     "weight loss specialist", "endocrinologist"])]

/-- The category weight table of `_calculate_relevance_score`. -/
def categoryWeights : List (String × ℚ) :=
  [("conditions", 0.3), ("treatments", 0.25), ("symptoms", 0.2),
   ("lifestyle", 0.15), ("care", 0.1)]

/-- Per-category hit densities
(`keyword_count / len(keywords)` for each category). -/
def categoryScores (content_lower : List Char) : List (String × ℚ) :=
  health_keywords.map fun ck =>
    (ck.1, ((ck.2.filter (fun k => kwIn k content_lower)).length : ℚ) / (ck.2.length : ℚ))

/-- Embedding of `ContentChunker._calculate_relevance_score`; the chunk is
passed as its `content` and `word_count` fields, which are the only ones the
source reads. -/
def calculateRelevanceScore (min_chunk_size : Nat) (content : List Char)
    (word_count : Nat) : ℚ :=
  if content.isEmpty then 0
  else if word_count = 0 then 0
  else
    let content_lower := pyLower content
    let category_scores := categoryScores content_lower
    let weighted_score :=
      (categoryWeights.map fun cw => ((category_scores.lookup cw.1).getD 0) * cw.2).sum
    let categories_present := (category_scores.filter fun p => 0 < p.2).length
    let diversity_bonus := min ((categories_present : ℚ) * 0.1) 0.3
    let length_factor := min ((word_count : ℚ) / (min_chunk_size : ℚ)) 1
    let final_score := (weighted_score + diversity_bonus) * length_factor
    min final_score 1

theorem lookup_mem {l : List (String × ℚ)} {a : String} {b : ℚ}
    (h : l.lookup a = some b) : (a, b) ∈ l := by
  induction l with
  | nil => simp [List.lookup] at h
  | cons x xs ih =>
    rw [List.lookup] at h
    by_cases hx : a == x.1
    · simp only [hx, if_pos] at h
      cases h
      have ha : a = x.1 := by simpa using hx
      subst ha
      simp
    · simp only [hx] at h
      exact List.mem_cons_of_mem x (ih h)

theorem categoryScores_nonneg (cl : List Char) :
    ∀ p ∈ categoryScores cl, 0 ≤ p.2 := by
  intro p hp
  rcases List.mem_map.mp hp with ⟨ck, _, rfl⟩
  have h1 : (0 : ℚ) ≤ ((ck.2.filter (fun k => kwIn k cl)).length : ℚ) := by positivity
  have h2 : (0 : ℚ) ≤ ((ck.2.length : ℚ))⁻¹ := by positivity
  simpa [div_eq_mul_inv] using mul_nonneg h1 h2

end HealthExtractor

namespace HealthExtractor

/-! ## Claim C2: relevance score range and zero on keyword-free content -/

theorem weights_nonneg : ∀ cw ∈ categoryWeights, 0 ≤ cw.2 := by
  intro cw hcw
  fin_cases hcw <;> norm_num

theorem lookup_map_zero (l : List (String × List String)) (a : String) :
    ((l.map fun ck => (ck.1, (0 : ℚ))).lookup a).getD 0 = 0 := by
  cases hl : (l.map fun ck => (ck.1, (0 : ℚ))).lookup a with
  | none => rfl
  | some v =>
    rcases List.mem_map.mp (lookup_mem hl) with ⟨ck, _, heq⟩
    have hv : v = 0 := (congrArg Prod.snd heq).symm
    simp [hv]

/-- C2: for any chunk content and word count (and any positive configured
minimum chunk size), `calculateRelevanceScore` — the embedding of
`ContentChunker._calculate_relevance_score` — lies in `[0, 1]`, and equals 0
whenever no health keyword occurs as a substring of the lowercased content,
regardless of the word count. -/
theorem C2_relevance_score_range_and_zero (min_chunk_size : Nat)
    (hmin : 0 < min_chunk_size) (content : List Char) (word_count : Nat) :
    (0 ≤ calculateRelevanceScore min_chunk_size content word_count ∧
      calculateRelevanceScore min_chunk_size content word_count ≤ 1) ∧
    ((∀ ck ∈ health_keywords, ∀ k ∈ ck.2, kwIn k (pyLower content) = false) →
      calculateRelevanceScore min_chunk_size content word_count = 0) := by
  constructor
  · simp only [calculateRelevanceScore]
    split_ifs with h1 h2
    · norm_num
    · norm_num
    · constructor
      · refine le_min (mul_nonneg (add_nonneg ?_ ?_) ?_) (by norm_num)
        · refine List.sum_nonneg ?_
          intro x hx
          rcases List.mem_map.mp hx with ⟨cw, hcw, rfl⟩
          refine mul_nonneg ?_ (weights_nonneg cw hcw)
          cases hl : (categoryScores (pyLower content)).lookup cw.1 with
          | none => simp
          | some v => simpa using categoryScores_nonneg _ _ (lookup_mem hl)
        · exact le_min (by positivity) (by norm_num)
        · exact le_min (by positivity) (by norm_num)
      · exact min_le_right _ 1
  · intro hno
    simp only [calculateRelevanceScore]
    split_ifs with h1 h2
    · rfl
    · rfl
    · have hcs : categoryScores (pyLower content) =
          health_keywords.map fun ck => (ck.1, (0 : ℚ)) := by
        unfold categoryScores
        refine List.map_congr_left ?_
        intro ck hck
        have hf : ck.2.filter (fun k => kwIn k (pyLower content)) = [] :=
          List.filter_eq_nil_iff.mpr (fun k hk => by simp [hno ck hck k hk])
        simp [hf]
      rw [hcs]
      have hcnt : ((health_keywords.map fun ck => (ck.1, (0 : ℚ))).filter fun p =>
          decide (0 < p.2)) = [] := by
        refine List.filter_eq_nil_iff.mpr ?_
        intro p hp
        rcases List.mem_map.mp hp with ⟨ck, _, rfl⟩
        simp
      simp only [lookup_map_zero, zero_mul, hcnt]
      have hsum : (categoryWeights.map fun _ => (0 : ℚ)).sum = 0 := by simp
      rw [hsum]
      rw [List.length_nil]
      rw [Nat.cast_zero, zero_mul, min_eq_left (by norm_num : (0:ℚ) ≤ 0.3)]
      rw [add_zero, zero_mul]
      exact min_eq_left (by norm_num)

def c2Content : List Char := "zz qq rr".toList

/-- Witness for C2: a concrete keyword-free content of three words. -/
theorem C2_relevance_score_witness :
    0 ≤ calculateRelevanceScore 50 c2Content 3 ∧
      calculateRelevanceScore 50 c2Content 3 = 0 :=
  ⟨(C2_relevance_score_range_and_zero 50 (by norm_num) c2Content 3).1.1,
    (C2_relevance_score_range_and_zero 50 (by norm_num) c2Content 3).2 (by decide)⟩

end HealthExtractor

namespace HealthExtractor

/-! ## Claim C3: header/page-number line filtering in `_clean_text` -/

def c3Input : List Char :=
  ("42\nDiabetes is a chronic condition affecting blood sugar levels.").toList

/-- C3 (code-bug evidence): `_clean_text` collapses ALL whitespace — newlines
included — into single spaces before splitting on newlines, so the per-line
page-number/header filters never see the original lines.  On a page whose
first line is the purely numeric `42`, the line IS purely numeric by the
source's own `^\d+\s*$` test, yet its text survives into the cleaned output
used for paragraph splitting. -/
theorem C3_clean_text_keeps_numeric_line :
    isNumericLine ("42".toList) = true ∧
    cleanText c3Input =
      ("42 Diabetes is a chronic condition affecting blood sugar levels.").toList ∧
    containsSub ("42".toList) (cleanText c3Input) = true := by
  refine ⟨by decide, by decide, by decide⟩

end HealthExtractor

namespace HealthExtractor

/-! ## Reading-level estimator (`GeminiSummarizer._estimate_reading_level`) -/

def pyVowels : List Char := ['a', 'e', 'i', 'o', 'u', 'y']

def countSyllablesLoop : List Char → Bool → Nat
  | [], _ => 0
  | c :: cs, prev_was_vowel =>
    if c ∈ pyVowels then
      (if prev_was_vowel then 0 else 1) + countSyllablesLoop cs true
    else countSyllablesLoop cs false

/-- Embedding of `GeminiSummarizer._count_syllables`. -/
def countSyllables (word : List Char) : Nat :=
  let w := pyLower word
  let n := countSyllablesLoop w false
  let n2 := if w.getLast? = some 'e' ∧ 1 < n then n - 1 else n
  max 1 n2

/-- The sentence list of `_estimate_reading_level`:
`[s.strip() for s in text.split('.') if s.strip()]`. -/
def pySentences (text : List Char) : List (List Char) :=
  ((text.splitOn '.').map pyStrip).filter fun s => !s.isEmpty

/-- Mean words per sentence (`total_words / len(sentences)`). -/
def avgSentenceLength (text : List Char) : ℚ :=
  (wordCount text : ℚ) / ((pySentences text).length : ℚ)

/-- Fraction of words with at least three estimated syllables
(`complex_words / len(words) if words else 0`). -/
def complexRatio (text : List Char) : ℚ :=
  let words := pyWords text
  if ¬words.isEmpty then
    ((words.filter fun w => 3 ≤ countSyllables w).length : ℚ) / (words.length : ℚ)
  else 0

/-- The banded base grade of `_estimate_reading_level`. -/
def baseGrade (avg : ℚ) : ℚ :=
  if avg ≤ 10 then 4 else if avg ≤ 15 then 6 else if avg ≤ 20 then 8 else 10

/-- Embedding of `GeminiSummarizer._estimate_reading_level`. -/
def estimateReadingLevel (text : List Char) : ℚ :=
  if text.isEmpty then 12
  else if (pySentences text).isEmpty then 12
  else min (baseGrade (avgSentenceLength text) + complexRatio text * 4) 12

theorem four_le_baseGrade (a : ℚ) : 4 ≤ baseGrade a := by
  unfold baseGrade
  split_ifs <;> norm_num

theorem complexRatio_nonneg (t : List Char) : 0 ≤ complexRatio t := by
  simp only [complexRatio]
  split_ifs <;> positivity

/-- C4: the reading-level estimate is always within `[1, 12]`, is exactly 12 on
empty input, and on the main path equals the banded base grade
(≤10 words/sentence → 4, ≤15 → 6, ≤20 → 8, else 10) plus the complex-word
penalty, clamped at 12. -/
theorem C4_reading_level_range (text : List Char) :
    (1 ≤ estimateReadingLevel text ∧ estimateReadingLevel text ≤ 12) ∧
    (text = [] → estimateReadingLevel text = 12) ∧
    ((¬text.isEmpty ∧ ¬(pySentences text).isEmpty) →
      estimateReadingLevel text =
        min ((if avgSentenceLength text ≤ 10 then 4
              else if avgSentenceLength text ≤ 15 then 6
              else if avgSentenceLength text ≤ 20 then 8 else 10) +
            complexRatio text * 4) 12) := by
  refine ⟨?_, ?_, ?_⟩
  · unfold estimateReadingLevel
    split_ifs
    · norm_num
    · norm_num
    · constructor
      · refine le_min ?_ (by norm_num)
        have hb := four_le_baseGrade (avgSentenceLength text)
        have hr := complexRatio_nonneg text
        linarith
      · exact min_le_right _ 12
  · intro h
    subst h
    rfl
  · intro h
    rw [estimateReadingLevel, if_neg h.1, if_neg h.2, baseGrade]

def c5t1 : List Char := "go on. we do.".toList

def c5t2 : List Char := "go on and we do.".toList

theorem complexRatio_eq_zero (t : List Char)
    (h : (pyWords t).filter (fun w => decide (3 ≤ countSyllables w)) = []) :
    complexRatio t = 0 := by
  simp only [complexRatio]
  split_ifs <;> simp [h]

/-- C5: at fixed complex-word fraction, the reading-level estimate is monotone
non-decreasing in the mean sentence length. -/
theorem C5_reading_level_monotone (t1 t2 : List Char)
    (h1 : ¬t1.isEmpty) (h2 : ¬t2.isEmpty)
    (hs1 : ¬(pySentences t1).isEmpty) (hs2 : ¬(pySentences t2).isEmpty)
    (hr : complexRatio t1 = complexRatio t2)
    (ha : avgSentenceLength t1 ≤ avgSentenceLength t2) :
    estimateReadingLevel t1 ≤ estimateReadingLevel t2 := by
  have hb : baseGrade (avgSentenceLength t1) ≤ baseGrade (avgSentenceLength t2) := by
    unfold baseGrade
    split_ifs <;> linarith
  rw [estimateReadingLevel, if_neg h1, if_neg hs1,
    estimateReadingLevel, if_neg h2, if_neg hs2, hr]
  exact min_le_min (by linarith) (le_refl 12)

/-- Witness for C5: `"go on. we do."` (2 words per sentence) versus
`"go on and we do."` (5 words per sentence), both with complex-word ratio 0. -/
theorem C5_reading_level_monotone_witness :
    estimateReadingLevel c5t1 ≤ estimateReadingLevel c5t2 := by
  refine C5_reading_level_monotone c5t1 c5t2 (by decide) (by decide) (by decide)
    (by decide) ?_ ?_
  · rw [complexRatio_eq_zero c5t1 (by decide), complexRatio_eq_zero c5t2 (by decide)]
  · unfold avgSentenceLength
    rw [show wordCount c5t1 = 4 from rfl, show (pySentences c5t1).length = 2 from rfl,
      show wordCount c5t2 = 5 from rfl, show (pySentences c5t2).length = 1 from rfl]
    norm_num

end HealthExtractor

namespace HealthExtractor

/-! ## DuplicateDetector (duplicate_detector.py) -/

/-- Length of the longest common prefix of two lists. -/
def commonPrefixLen : List Char → List Char → Nat
  | a :: as, b :: bs => if a = b then commonPrefixLen as bs + 1 else 0
  | _, _ => 0

/-- difflib `SequenceMatcher.find_longest_match` (without junk, which is how
the source uses it on short title strings): the longest contiguous common
block, ties broken by least start in `a`, then least start in `b`;
returns `(i, j, size)`. -/
def findLongestMatch (a b : List Char) : Nat × Nat × Nat :=
  (List.range a.length).foldl (fun best i =>
    (List.range b.length).foldl (fun best j =>
      let k := commonPrefixLen (a.drop i) (b.drop j)
      if best.2.2 < k then (i, j, k) else best) best) (0, 0, 0)

/-- Total size of difflib's matching blocks, found by recursive splitting
around the longest match.  Fuel keeps the recursion structural (each level
splits on a nonempty match, so `length a + length b` fuel suffices). -/
def matchedSizeFuel : Nat → List Char → List Char → Nat
  | 0, _, _ => 0
  | fuel + 1, a, b =>
    let m := findLongestMatch a b
    if m.2.2 = 0 then 0
    else matchedSizeFuel fuel (a.take m.1) (b.take m.2.1) + m.2.2 +
      matchedSizeFuel fuel (a.drop (m.1 + m.2.2)) (b.drop (m.2.1 + m.2.2))

def matchedSize (a b : List Char) : Nat := matchedSizeFuel (a.length + b.length) a b

/-- difflib `SequenceMatcher.ratio()`: `2*M / (len(a)+len(b))`, and 1.0 when
both sequences are empty. -/
def seqRatio (a b : List Char) : ℚ :=
  if a.length + b.length = 0 then 1
  else 2 * (matchedSize a b : ℚ) / ((a.length : ℚ) + (b.length : ℚ))

/-- The fields of `SummarizedContent` that duplicate detection reads. -/
structure SummarizedContent where
  title : List Char
  content : List Char
  medical_condition_tags : List (List Char)
deriving DecidableEq

/-- The fields of a corpus `HealthArticle` that duplicate detection reads. -/
structure HealthArticle where
  id : String
  title : List Char
  content : List Char
  medical_condition_tags : List (List Char)
deriving DecidableEq

structure Detector where
  similarity_threshold : ℚ
  title_similarity_threshold : ℚ

/-- Embedding of `DuplicateDetector.__init__`:
`similarity_threshold or max(0.65, settings.similarity_threshold * 0.75)`
(Python `or` treats the argument `0.0` — and `None` — as falsy), plus a fixed
title-similarity threshold of 0.8. -/
def detectorInit (settings_similarity_threshold : ℚ)
    (similarity_threshold : Option ℚ) : Detector :=
  let t := match similarity_threshold with
    | none => max 0.65 (settings_similarity_threshold * 0.75)
    | some a => if a = 0 then max 0.65 (settings_similarity_threshold * 0.75) else a
  { similarity_threshold := t, title_similarity_threshold := 0.8 }

/-- `''.join(c.lower() for c in t if c.isalnum() or c.isspace()).strip()` —
the title normalization actually used by `_check_title_similarity` (note it
KEEPS whitespace). -/
def cleanAlnumSpace (t : List Char) : List Char :=
  pyStrip ((t.filter fun c => c.isAlphanum || c.isWhitespace).map Char.toLower)

/-- The per-article similarity computation inside
`DuplicateDetector._check_title_similarity`; both arguments are already
lowercased and stripped by the caller, as in the source. -/
def titleSimilarity (new_title existing_title : List Char) : ℚ :=
  let s0 := seqRatio new_title existing_title
  let s1 := if 10 < new_title.length ∧ 10 < existing_title.length ∧
      (containsSub new_title existing_title || containsSub existing_title new_title) then
      max s0 0.85
    else s0
  let clean_new := cleanAlnumSpace new_title
  let clean_existing := cleanAlnumSpace existing_title
  if clean_new = clean_existing then 1
  else if ¬clean_new.isEmpty ∧ ¬clean_existing.isEmpty then
    max s1 (seqRatio clean_new clean_existing)
  else s1

def scoreDesc (x y : String × ℚ) : Prop := y.2 ≤ x.2

instance : DecidableRel scoreDesc := fun x y => inferInstanceAs (Decidable (y.2 ≤ x.2))

instance : IsTotal (String × ℚ) scoreDesc := ⟨fun x y => le_total y.2 x.2⟩

instance : IsTrans (String × ℚ) scoreDesc := ⟨fun _ _ _ hxy hyz => le_trans hyz hxy⟩

/-- Python `sorted(-, key=lambda x: x[1], reverse=True)` / `.sort(...)`:
a stable descending sort by score. -/
def sortByScoreDesc (l : List (String × ℚ)) : List (String × ℚ) :=
  l.insertionSort scoreDesc

/-- Embedding of `DuplicateDetector._check_title_similarity`. -/
def checkTitleSimilarity (det : Detector) (new_content : SummarizedContent)
    (existing_articles : List HealthArticle) : List (String × ℚ) :=
  let new_title := pyStrip (pyLower new_content.title)
  let dups := existing_articles.filterMap fun article =>
    let existing_title := pyStrip (pyLower article.title)
    let similarity := titleSimilarity new_title existing_title
    if det.title_similarity_threshold ≤ similarity then some (article.id, similarity)
    else none
  sortByScoreDesc dups

def isWordChar (c : Char) : Bool := c.isAlphanum || c = '_'

/-- `re.sub(r'\bNEEDLE\b', repl, text)` scanning left to right; `prev` is the
original character before the scan position (for the `\b` boundary), and the
`Nat` is fuel (each step consumes at least one character). -/
def subWordAux (needle repl : List Char) : Nat → List Char → Option Char → List Char
  | 0, l, _ => l
  | _ + 1, [], _ => []
  | fuel + 1, c :: rest, prev =>
    let boundaryBefore := match prev with
      | none => true
      | some p => !isWordChar p
    let tailRest := (c :: rest).drop needle.length
    let boundaryAfter := match tailRest with
      | [] => true
      | d :: _ => !isWordChar d
    if !needle.isEmpty && needle.isPrefixOf (c :: rest) && boundaryBefore && boundaryAfter then
      repl ++ subWordAux needle repl fuel tailRest needle.getLast?
    else c :: subWordAux needle repl fuel rest (some c)

def subWord (needle repl text : List Char) : List Char :=
  subWordAux needle repl (text.length + 1) text none

/-- Embedding of `DuplicateDetector._clean_text`: lowercase, expand the
`dash`/`hbp`/`bp` abbreviations at word boundaries, collapse whitespace,
replace characters other than word characters / whitespace / `.!?` by spaces,
collapse whitespace again, strip. -/
def detectorCleanText (text : List Char) : List Char :=
  if text.isEmpty then []
  else
    let t1 := pyLower text
    let t2 := subWord "dash".toList "dietary approaches to stop hypertension".toList t1
    let t3 := subWord "hbp".toList "high blood pressure".toList t2
    let t4 := subWord "bp".toList "blood pressure".toList t3
    let t5 := collapseWs t4
    let t6 := t5.map fun c =>
      if isWordChar c || c.isWhitespace || c = '.' || c = '!' || c = '?' then c else ' '
    pyStrip (collapseWs t6)

/-- Python `' '.join(part for part in text_parts if part)`. -/
def joinNonEmpty (parts : List (List Char)) : List Char :=
  joinSpace (parts.filter fun p => !p.isEmpty)

/-- Embedding of `DuplicateDetector._prepare_text_for_comparison`. -/
def prepareTextForComparison (c : SummarizedContent) : List Char :=
  detectorCleanText (joinNonEmpty
    [c.title ++ ' ' :: c.title, c.content, joinSpace c.medical_condition_tags])

/-- Embedding of `DuplicateDetector._prepare_article_text`. -/
def prepareArticleText (a : HealthArticle) : List Char :=
  detectorCleanText (joinNonEmpty
    [a.title ++ ' ' :: a.title, a.content, joinSpace a.medical_condition_tags])

/-- Embedding of `DuplicateDetector._find_similar_articles`.  The sklearn
TF-IDF vectorization and cosine-similarity computation are external numerical
library calls; they enter as the oracle `vectorize`, which receives all
prepared texts (existing ++ [new]) and returns the similarity of the new text
against each existing text, or fails; the source's `try/except` around the
vectorization returns `[]` on failure. -/
def findSimilarArticles (vectorize : List (List Char) → Except Unit (List ℚ))
    (new_text : List Char) (existing_articles : List HealthArticle) :
    List (String × ℚ) :=
  if existing_articles.isEmpty then []
  else
    let prepared := existing_articles.filterMap fun a =>
      let t := prepareArticleText a
      if !t.isEmpty then some (a.id, t) else none
    let article_ids := prepared.map Prod.fst
    let existing_texts := prepared.map Prod.snd
    if existing_texts.isEmpty then []
    else
      match vectorize (existing_texts ++ [new_text]) with
      | Except.error _ => []
      | Except.ok sims => sortByScoreDesc (article_ids.zip sims)

/-- The dict merge in `check_for_duplicates`:
`all_duplicates[id] = max(all_duplicates.get(id, 0), score)`, preserving
first-occurrence insertion order as Python dicts do. -/
def dedupeMax (l : List (String × ℚ)) : List (String × ℚ) :=
  l.foldl (fun acc p =>
    if acc.any fun q => q.1 == p.1 then
      acc.map fun q => if q.1 == p.1 then (q.1, max q.2 p.2) else q
    else acc ++ [(p.1, max 0 p.2)]) []

/-- Embedding of `DuplicateDetector.check_for_duplicates`.  `corpus` is the
outcome of the `_get_existing_articles` database read (whose `except` handler
returns `[]`); `vectorize` is the sklearn oracle of `findSimilarArticles`.
The embedding is a total function: every failure path yields a value, which is
the "never raises" behavior of the source's outer `try/except`. -/
def check_for_duplicates (det : Detector) (corpus : Except Unit (List HealthArticle))
    (vectorize : List (List Char) → Except Unit (List ℚ))
    (new_content : SummarizedContent) : List (String × ℚ) :=
  let existing_articles := match corpus with
    | Except.error _ => []
    | Except.ok l => l
  if existing_articles.isEmpty then []
  else
    let title_duplicates := checkTitleSimilarity det new_content existing_articles
    if !title_duplicates.isEmpty then title_duplicates
    else
      let content_duplicates := findSimilarArticles vectorize
        (prepareTextForComparison new_content) existing_articles
      let all_duplicates := dedupeMax content_duplicates
      let final_duplicates := all_duplicates.filter fun p =>
        det.similarity_threshold ≤ p.2
      sortByScoreDesc final_duplicates

end HealthExtractor

namespace HealthExtractor

/-! ## Claim C6: identical normalized titles and the title-stage short circuit -/

/-- Title normalization exactly as the claim/spec words it: lowercase and
remove ALL non-alphanumeric characters (whitespace included).  Stated only for
comparison with the source's actual normalization `cleanAlnumSpace`, which
keeps whitespace. -/
def specNormalizeTitle (t : List Char) : List Char :=
  (t.filter Char.isAlphanum).map Char.toLower

def c6Cand : SummarizedContent := ⟨"ab cd".toList, [], []⟩

def c6Art : HealthArticle := ⟨"a1", "abcd".toList, [], []⟩

def c6Det : Detector := detectorInit 0.85 none

theorem sortByScoreDesc_singleton (p : String × ℚ) : sortByScoreDesc [p] = [p] := by
  simp [sortByScoreDesc, List.insertionSort, List.orderedInsert]

/-- C6 (counterexample): `"ab cd"` and `"abcd"` are identical after the
claim's normalization (non-alphanumerics removed), yet the title stage
assigns similarity 8/9 — a title-stage match, but not similarity 1.0, because
the source's normalization keeps whitespace. -/
theorem C6_identical_normalized_not_one :
    specNormalizeTitle c6Cand.title = specNormalizeTitle c6Art.title ∧
    checkTitleSimilarity c6Det c6Cand [c6Art] = [("a1", 8/9)] ∧
    ((8 : ℚ)/9) ≠ 1 := by
  refine ⟨by decide, ?_, by norm_num⟩
  have hms : matchedSize ("ab cd".toList) ("abcd".toList) = 4 := by decide
  have hsr : seqRatio ("ab cd".toList) ("abcd".toList) = 8/9 := by
    rw [seqRatio, if_neg (by decide), hms]
    norm_num
  have hclean1 : cleanAlnumSpace ("ab cd".toList) = "ab cd".toList := by decide
  have hclean2 : cleanAlnumSpace ("abcd".toList) = "abcd".toList := by decide
  have hsim : titleSimilarity ("ab cd".toList) ("abcd".toList) = 8/9 := by
    simp +decide only [titleSimilarity, hclean1, hclean2]
    rw [hsr]
    simp
  have hX : pyStrip (pyLower c6Cand.title) = "ab cd".toList := by decide
  have hY : pyStrip (pyLower c6Art.title) = "abcd".toList := by decide
  simp only [checkTitleSimilarity, List.filterMap_cons, List.filterMap_nil, hX, hY, hsim]
  rw [if_pos (by norm_num [c6Det, detectorInit] : c6Det.title_similarity_threshold ≤ 8/9)]
  exact sortByScoreDesc_singleton _

/-- C6 (amended): when the candidate title and a corpus article title are
identical under the SOURCE's normalization (lowercase, drop characters that
are neither alphanumeric nor whitespace, strip), the title stage assigns
similarity exactly 1.0, and `check_for_duplicates` returns the title-stage
result unchanged for EVERY content-stage vectorizer — the content stage is
never consulted. -/
theorem C6_title_match_short_circuit (det : Detector) (cand : SummarizedContent)
    (existing : List HealthArticle) (art : HealthArticle)
    (hmem : art ∈ existing)
    (hclean : cleanAlnumSpace (pyStrip (pyLower cand.title)) =
      cleanAlnumSpace (pyStrip (pyLower art.title)))
    (hthr : det.title_similarity_threshold ≤ 1)
    (vec1 vec2 : List (List Char) → Except Unit (List ℚ)) :
    (art.id, (1 : ℚ)) ∈ checkTitleSimilarity det cand existing ∧
    check_for_duplicates det (Except.ok existing) vec1 cand =
      checkTitleSimilarity det cand existing ∧
    check_for_duplicates det (Except.ok existing) vec1 cand =
      check_for_duplicates det (Except.ok existing) vec2 cand := by
  have hsim1 : titleSimilarity (pyStrip (pyLower cand.title))
      (pyStrip (pyLower art.title)) = 1 := by
    simp only [titleSimilarity]
    rw [if_pos hclean]
  have hmemdup : (art.id, (1 : ℚ)) ∈ checkTitleSimilarity det cand existing := by
    simp only [checkTitleSimilarity, sortByScoreDesc]
    refine (List.mem_insertionSort scoreDesc).mpr ?_
    refine List.mem_filterMap.mpr ⟨art, hmem, ?_⟩
    simp only [hsim1]
    rw [if_pos hthr]
  have hne : existing ≠ [] := List.ne_nil_of_mem hmem
  have hdne : checkTitleSimilarity det cand existing ≠ [] := by
    intro h
    rw [h] at hmemdup
    exact (List.not_mem_nil _) hmemdup
  have hret : check_for_duplicates det (Except.ok existing) vec1 cand =
      checkTitleSimilarity det cand existing := by
    simp only [check_for_duplicates]
    rw [if_neg (by simpa [List.isEmpty_iff] using hne),
      if_pos (by simpa [List.isEmpty_iff] using hdne)]
  have hret2 : check_for_duplicates det (Except.ok existing) vec2 cand =
      checkTitleSimilarity det cand existing := by
    simp only [check_for_duplicates]
    rw [if_neg (by simpa [List.isEmpty_iff] using hne),
      if_pos (by simpa [List.isEmpty_iff] using hdne)]
  exact ⟨hmemdup, hret, hret.trans hret2.symm⟩

def c6wCand : SummarizedContent := ⟨"Hello, world".toList, [], []⟩

def c6wArt : HealthArticle := ⟨"w1", "Hello world!".toList, [], []⟩

/-- Witness for the amended C6 at concrete titles differing only in
punctuation. -/
theorem C6_title_match_short_circuit_witness :
    ("w1", (1 : ℚ)) ∈ checkTitleSimilarity c6Det c6wCand [c6wArt] ∧
    check_for_duplicates c6Det (Except.ok [c6wArt]) (fun _ => Except.ok []) c6wCand =
      checkTitleSimilarity c6Det c6wCand [c6wArt] ∧
    check_for_duplicates c6Det (Except.ok [c6wArt]) (fun _ => Except.ok []) c6wCand =
      check_for_duplicates c6Det (Except.ok [c6wArt]) (fun _ => Except.error ()) c6wCand :=
  C6_title_match_short_circuit c6Det c6wCand [c6wArt] c6wArt (by decide) (by decide)
    (by norm_num [c6Det, detectorInit]) (fun _ => Except.ok []) (fun _ => Except.error ())

end HealthExtractor

namespace HealthExtractor

/-! ## Claim C7: returned scores versus the thresholds, and ordering -/

theorem sorted_sortByScoreDesc (l : List (String × ℚ)) :
    List.Sorted scoreDesc (sortByScoreDesc l) :=
  List.sorted_insertionSort scoreDesc l

theorem checkTitleSimilarity_mem_ge (det : Detector) (cand : SummarizedContent)
    (existing : List HealthArticle) :
    ∀ p ∈ checkTitleSimilarity det cand existing,
      det.title_similarity_threshold ≤ p.2 := by
  intro p hp
  simp only [checkTitleSimilarity, sortByScoreDesc] at hp
  rcases List.mem_filterMap.mp ((List.mem_insertionSort scoreDesc).mp hp)
    with ⟨art, _, hf⟩
  split at hf
  · rename_i h
    cases hf
    exact h
  · cases hf

/-- C7 (amended): every `(article_id, score)` pair returned by
`check_for_duplicates` has score at least
`min title_similarity_threshold similarity_threshold` — the title stage
filters at the title threshold (0.8), the content stage at the content
similarity threshold — and the returned list is sorted in descending score
order. -/
theorem C7_scores_filtered_and_sorted (det : Detector)
    (corpus : Except Unit (List HealthArticle))
    (vec : List (List Char) → Except Unit (List ℚ)) (cand : SummarizedContent) :
    (∀ p ∈ check_for_duplicates det corpus vec cand,
      min det.title_similarity_threshold det.similarity_threshold ≤ p.2) ∧
    List.Sorted scoreDesc (check_for_duplicates det corpus vec cand) := by
  simp only [check_for_duplicates]
  cases corpus with
  | error e =>
    simp only []
    constructor
    · intro p hp
      simp at hp
    · simp [List.sorted_nil]
  | ok existing =>
    simp only []
    split_ifs with h1 h2
    · constructor
      · intro p hp
        simp at hp
      · exact List.sorted_nil
    · constructor
      · intro p hp
        exact le_trans (min_le_left _ _) (checkTitleSimilarity_mem_ge det cand existing p hp)
      · simp only [checkTitleSimilarity, sortByScoreDesc] at *
        exact List.sorted_insertionSort scoreDesc _
    · constructor
      · intro p hp
        simp only [sortByScoreDesc] at hp
        have hpf := (List.mem_insertionSort scoreDesc).mp hp
        have := (List.mem_filter.mp hpf).2
        exact le_trans (min_le_right _ _) (by simpa using this)
      · exact sorted_sortByScoreDesc _

def c7Cand : SummarizedContent := ⟨"blood pressure".toList, [], []⟩

def c7Art : HealthArticle := ⟨"a1", "blood pressure tips".toList, [], []⟩

def c7Det : Detector := detectorInit 0.85 (some 0.95)

theorem c7_check_result :
    check_for_duplicates c7Det (Except.ok [c7Art]) (fun _ => Except.ok []) c7Cand =
      [("a1", 17/20)] := by
  have hms : matchedSize ("blood pressure".toList) ("blood pressure tips".toList) = 14 := by
    set_option maxRecDepth 8000 in decide
  have hsr : seqRatio ("blood pressure".toList) ("blood pressure tips".toList) = 28/33 := by
    rw [seqRatio, if_neg (by decide), hms]
    norm_num
  have hclean1 : cleanAlnumSpace ("blood pressure".toList) = "blood pressure".toList := by
    decide
  have hclean2 : cleanAlnumSpace ("blood pressure tips".toList) =
      "blood pressure tips".toList := by decide
  have hsim : titleSimilarity ("blood pressure".toList) ("blood pressure tips".toList) =
      17/20 := by
    simp +decide only [titleSimilarity, hclean1, hclean2]
    rw [hsr]
    rw [show ((28:ℚ)/33 ⊔ 0.85) = 17/20 by
      rw [max_eq_right (by norm_num)]
      norm_num]
    rw [max_eq_left (by norm_num)]
    simp
  have hX : pyStrip (pyLower c7Cand.title) = "blood pressure".toList := by decide
  have hY : pyStrip (pyLower c7Art.title) = "blood pressure tips".toList := by decide
  have htd : checkTitleSimilarity c7Det c7Cand [c7Art] = [("a1", 17/20)] := by
    simp only [checkTitleSimilarity, List.filterMap_cons, List.filterMap_nil, hX, hY, hsim]
    rw [if_pos (by norm_num [c7Det, detectorInit] :
      c7Det.title_similarity_threshold ≤ 17/20)]
    exact sortByScoreDesc_singleton _
  simp only [check_for_duplicates]
  rw [if_neg (by decide), if_pos (by rw [htd]; decide)]
  exact htd

/-- C7 (counterexample to the claim as stated): with an explicitly configured
content similarity threshold of 0.95, a title-stage match of similarity
0.85 = 17/20 (containment of one title in the other) is returned even though
it is BELOW the detector's content similarity threshold. -/
theorem C7_title_score_below_content_threshold :
    check_for_duplicates c7Det (Except.ok [c7Art]) (fun _ => Except.ok []) c7Cand =
      [("a1", 17/20)] ∧
    ((17 : ℚ)/20) < c7Det.similarity_threshold := by
  refine ⟨c7_check_result, ?_⟩
  have hth : c7Det.similarity_threshold = 0.95 := by
    simp only [c7Det, detectorInit]
    rw [if_neg (by norm_num)]
  rw [hth]
  norm_num

/-- Witness for the amended C7 at a run that returns a nonempty result. -/
theorem C7_scores_filtered_and_sorted_witness :
    min c7Det.title_similarity_threshold c7Det.similarity_threshold ≤ (17 : ℚ)/20 ∧
    List.Sorted scoreDesc
      (check_for_duplicates c7Det (Except.ok [c7Art]) (fun _ => Except.ok []) c7Cand) := by
  have h := C7_scores_filtered_and_sorted c7Det (Except.ok [c7Art])
    (fun _ => Except.ok []) c7Cand
  refine ⟨?_, h.2⟩
  refine h.1 ("a1", 17/20) ?_
  rw [c7_check_result]
  exact List.mem_singleton.mpr rfl

end HealthExtractor

namespace HealthExtractor

/-! ## Claim C8: graceful degradation to "no duplicates" -/

theorem findSimilarArticles_vectorizer_error
    (vec : List (List Char) → Except Unit (List ℚ))
    (hvec : ∀ ts, vec ts = Except.error ())
    (new_text : List Char) (existing : List HealthArticle) :
    findSimilarArticles vec new_text existing = [] := by
  simp only [findSimilarArticles]
  split_ifs
  · rfl
  · rfl
  · rw [hvec]

/-- C8: duplicate checking degrades to the empty result — never an
exception — on every internal failure: a failed corpus read, an empty corpus,
and a vectorizer failure when the content stage runs (i.e. when the title
stage found no match).  The embedding `check_for_duplicates` is a total
function, which is the "never raises" guarantee of the source's `try/except`
handlers. -/
theorem C8_graceful_failure (det : Detector) (cand : SummarizedContent)
    (vec : List (List Char) → Except Unit (List ℚ))
    (existing : List HealthArticle)
    (hvec : ∀ ts, vec ts = Except.error ())
    (htitle : checkTitleSimilarity det cand existing = []) :
    check_for_duplicates det (Except.error ()) vec cand = [] ∧
    check_for_duplicates det (Except.ok []) vec cand = [] ∧
    check_for_duplicates det (Except.ok existing) vec cand = [] := by
  refine ⟨rfl, rfl, ?_⟩
  simp only [check_for_duplicates]
  split_ifs with h1 h2
  · rfl
  · exact htitle
  · rw [findSimilarArticles_vectorizer_error vec hvec]
    rfl

def c8Cand : SummarizedContent := ⟨"alpha".toList, [], []⟩

def c8Art : HealthArticle := ⟨"k1", "zzz".toList, [], []⟩

theorem c8_title_no_match :
    checkTitleSimilarity (detectorInit 0.85 none) c8Cand [c8Art] = [] := by
  have hms : matchedSize ("alpha".toList) ("zzz".toList) = 0 := by decide
  have hsr : seqRatio ("alpha".toList) ("zzz".toList) = 0 := by
    rw [seqRatio, if_neg (by decide), hms]
    norm_num
  have hclean1 : cleanAlnumSpace ("alpha".toList) = "alpha".toList := by decide
  have hclean2 : cleanAlnumSpace ("zzz".toList) = "zzz".toList := by decide
  have hsim : titleSimilarity ("alpha".toList) ("zzz".toList) = 0 := by
    simp +decide only [titleSimilarity, hclean1, hclean2]
    rw [hsr]
    simp
  have hX : pyStrip (pyLower c8Cand.title) = "alpha".toList := by decide
  have hY : pyStrip (pyLower c8Art.title) = "zzz".toList := by decide
  simp only [checkTitleSimilarity, List.filterMap_cons, List.filterMap_nil, hX, hY, hsim]
  rw [if_neg (by norm_num [detectorInit] :
    ¬(detectorInit 0.85 none).title_similarity_threshold ≤ (0 : ℚ))]
  rfl

/-- Witness for C8 at a concrete candidate, corpus article and failing
vectorizer. -/
theorem C8_graceful_failure_witness :
    check_for_duplicates (detectorInit 0.85 none) (Except.error ())
      (fun _ => Except.error ()) c8Cand = [] ∧
    check_for_duplicates (detectorInit 0.85 none) (Except.ok [])
      (fun _ => Except.error ()) c8Cand = [] ∧
    check_for_duplicates (detectorInit 0.85 none) (Except.ok [c8Art])
      (fun _ => Except.error ()) c8Cand = [] :=
  C8_graceful_failure (detectorInit 0.85 none) c8Cand (fun _ => Except.error ())
    [c8Art] (fun _ => rfl) c8_title_no_match

end HealthExtractor

namespace HealthExtractor

/-! ## Claim C10: the constructed content similarity threshold -/

/-- C10: a `DuplicateDetector` constructed without an explicit threshold — or
with the falsy value `0.0`, which Python `or` ignores — gets effective content
threshold `max(0.65, 0.75 * settings.similarity_threshold)`; this is always at
least 0.65, so a configured setting below 0.65 is never used as-is. -/
theorem C10_default_threshold (s : ℚ) :
    (detectorInit s none).similarity_threshold = max 0.65 (0.75 * s) ∧
    (detectorInit s (some 0)).similarity_threshold =
      (detectorInit s none).similarity_threshold ∧
    0.65 ≤ (detectorInit s none).similarity_threshold ∧
    (s < 0.65 → (detectorInit s none).similarity_threshold ≠ s) := by
  refine ⟨by simp [detectorInit, mul_comm], by simp [detectorInit], ?_, ?_⟩
  · simp only [detectorInit]
    exact le_max_left _ _
  · intro hs heq
    simp only [detectorInit] at heq
    have h1 : (0.65 : ℚ) ≤ max 0.65 (s * 0.75) := le_max_left _ _
    rw [heq] at h1
    linarith

/-- Witness for C10 at the concrete configured setting 0.5. -/
theorem C10_default_threshold_witness :
    0.65 ≤ (detectorInit 0.5 none).similarity_threshold ∧
    (detectorInit 0.5 none).similarity_threshold ≠ 0.5 :=
  ⟨(C10_default_threshold 0.5).2.2.1,
    (C10_default_threshold 0.5).2.2.2 (by norm_num)⟩

end HealthExtractor

namespace HealthExtractor

/-! ## Pipeline orchestrator (`process_pdf_background`, pdf_processing.py) -/

inductive PDFProcessingStatus
  | uploaded
  | parsing
  | chunking
  | processing
  | completed
  | failed
deriving DecidableEq

structure ProcessingStats where
  total_chunks : Nat
  articles_generated : Nat
  articles_skipped_duplicates : Nat
deriving DecidableEq

/-- A stored article record (the `HealthArticleCreate` data built in the
per-candidate loop; persistence is external). -/
structure CreatedArticle where
  title : List Char
  content : List Char
  image_url : Option (List Char)
deriving DecidableEq

structure PDFDocState where
  processing_status : PDFProcessingStatus
  total_chunks : Nat
  total_articles_generated : Nat
  processing_stats : Option ProcessingStats
deriving DecidableEq

/-- Embedding of `GeminiSummarizer.batch_summarize_chunks`: each chunk goes to
the summarization oracle; failures (`none`, covering both the `None` return of
`summarize_chunk` and the loop's own `except: continue`) are skipped and the
successes are collected in order. -/
def batchSummarizeChunks (summarize : ContentChunk → Option SummarizedContent)
    (chunks : List ContentChunk) : List SummarizedContent :=
  chunks.filterMap summarize

/-- The per-candidate processing loop of `process_pdf_background` (step 4):
candidates with a nonempty duplicate list are skipped, the rest are stored
with their (optional) matched image. -/
def processCandidates (dupCheck : SummarizedContent → List (String × ℚ))
    (findImage : SummarizedContent → Option (List Char))
    (cands : List SummarizedContent) : List CreatedArticle :=
  cands.filterMap fun s =>
    if ¬(dupCheck s).isEmpty then none
    else some ⟨s.title, s.content, findImage s⟩

/-- Embedding of `process_pdf_background` from the chunking step onward: the
chunk list is the chunker's output, and the external effects (summarization
oracle, duplicate detector, image search) enter as oracles.  Fatal
parse/chunk errors are upstream of this fragment; all per-item failures are
the skip paths below. -/
def processPdfBackground (chunks : List ContentChunk)
    (summarize : ContentChunk → Option SummarizedContent)
    (dupCheck : SummarizedContent → List (String × ℚ))
    (findImage : SummarizedContent → Option (List Char)) : PDFDocState :=
  if chunks.isEmpty then
    { processing_status := .completed, total_chunks := 0,
      total_articles_generated := 0, processing_stats := none }
  else
    let summarized_contents := batchSummarizeChunks summarize chunks
    if summarized_contents.isEmpty then
      { processing_status := .completed, total_chunks := chunks.length,
        total_articles_generated := 0, processing_stats := none }
    else
      let created_articles := processCandidates dupCheck findImage summarized_contents
      { processing_status := .completed, total_chunks := chunks.length,
        total_articles_generated := created_articles.length,
        processing_stats := some
          { total_chunks := chunks.length,
            articles_generated := created_articles.length,
            articles_skipped_duplicates :=
              summarized_contents.length - created_articles.length } }

theorem length_filterMap_if_pos {α β : Type} (p : α → Bool) (g : α → β) (l : List α) :
    (l.filterMap fun a => if p a then some (g a) else none).length =
      (l.filter p).length := by
  induction l with
  | nil => rfl
  | cons a as ih =>
    cases h : p a with
    | false => simp [List.filterMap_cons, List.filter_cons, h, ih]
    | true => simp [List.filterMap_cons, List.filter_cons, h, ih]

theorem processCandidates_length (dupCheck : SummarizedContent → List (String × ℚ))
    (findImage : SummarizedContent → Option (List Char))
    (cands : List SummarizedContent) :
    (processCandidates dupCheck findImage cands).length =
      (cands.filter fun s => (dupCheck s).isEmpty).length := by
  have hfun : (fun s => if ¬(dupCheck s).isEmpty then none
      else some (⟨s.title, s.content, findImage s⟩ : CreatedArticle)) =
      (fun s => if (dupCheck s).isEmpty then
        some (⟨s.title, s.content, findImage s⟩ : CreatedArticle) else none) := by
    funext s
    by_cases h : (dupCheck s).isEmpty <;> simp [h]
  unfold processCandidates
  rw [hfun]
  exact length_filterMap_if_pos _ _ cands

theorem length_filter_add_not (p : SummarizedContent → Bool)
    (l : List SummarizedContent) :
    (l.filter p).length + (l.filter fun a => !(p a)).length = l.length := by
  induction l with
  | nil => rfl
  | cons a as ih =>
    by_cases h : p a <;> simp [List.filter_cons, h, ← ih] <;> omega

/-- C9: when the summarization oracle fails on some chunks and succeeds on
others, the per-chunk failures are skipped: the final document status is
`completed` (never `failed`), and the recorded `articles_generated` equals the
number of successful summaries minus the candidates skipped as duplicates. -/
theorem C9_partial_failures_still_completed (chunks : List ContentChunk)
    (summarize : ContentChunk → Option SummarizedContent)
    (dupCheck : SummarizedContent → List (String × ℚ))
    (findImage : SummarizedContent → Option (List Char))
    (hfail : ∃ c ∈ chunks, summarize c = none)
    (hok : ∃ c ∈ chunks, (summarize c).isSome = true) :
    (processPdfBackground chunks summarize dupCheck findImage).processing_status =
      PDFProcessingStatus.completed ∧
    (processPdfBackground chunks summarize dupCheck findImage).total_articles_generated =
      (chunks.filterMap summarize).length -
        ((chunks.filterMap summarize).filter fun s => !(dupCheck s).isEmpty).length ∧
    (processPdfBackground chunks summarize dupCheck findImage).processing_stats =
      some { total_chunks := chunks.length,
             articles_generated := (chunks.filterMap summarize).length -
               ((chunks.filterMap summarize).filter fun s => !(dupCheck s).isEmpty).length,
             articles_skipped_duplicates :=
               ((chunks.filterMap summarize).filter fun s => !(dupCheck s).isEmpty).length } := by
  obtain ⟨c0, hc0, hnone⟩ := hfail
  obtain ⟨c1, hc1, hsome⟩ := hok
  have hchunks : ¬chunks.isEmpty = true := by
    cases chunks with
    | nil => cases hc0
    | cons x xs => simp
  obtain ⟨s1, hs1⟩ := Option.isSome_iff_exists.mp hsome
  have hsums_mem : s1 ∈ chunks.filterMap summarize :=
    List.mem_filterMap.mpr ⟨c1, hc1, hs1⟩
  have hsums : ¬(chunks.filterMap summarize).isEmpty = true := by
    cases hx : chunks.filterMap summarize with
    | nil => rw [hx] at hsums_mem; cases hsums_mem
    | cons y ys => simp
  have hlen : (processCandidates dupCheck findImage (chunks.filterMap summarize)).length =
      ((chunks.filterMap summarize).filter fun s => (dupCheck s).isEmpty).length :=
    processCandidates_length dupCheck findImage (chunks.filterMap summarize)
  have hcompl : ((chunks.filterMap summarize).filter
        fun s => (dupCheck s).isEmpty).length +
      ((chunks.filterMap summarize).filter fun s => !(dupCheck s).isEmpty).length =
      (chunks.filterMap summarize).length := by
    simpa using length_filter_add_not (fun s => (dupCheck s).isEmpty)
      (chunks.filterMap summarize)
  simp only [processPdfBackground, batchSummarizeChunks]
  rw [if_neg hchunks, if_neg hsums]
  refine ⟨rfl, ?_, ?_⟩
  · simp only []
    omega
  · simp only []
    have e1 : (processCandidates dupCheck findImage (chunks.filterMap summarize)).length =
        (chunks.filterMap summarize).length -
          ((chunks.filterMap summarize).filter fun s => !(dupCheck s).isEmpty).length := by
      omega
    rw [e1]
    have e2 : (chunks.filterMap summarize).length -
        ((chunks.filterMap summarize).length -
          ((chunks.filterMap summarize).filter fun s => !(dupCheck s).isEmpty).length) =
        ((chunks.filterMap summarize).filter fun s => !(dupCheck s).isEmpty).length := by
      omega
    rw [e2]

def c9Chunk (i : Nat) : ContentChunk := createChunk ("some chunk text".toList) i 1 "doc"

def c9Chunks : List ContentChunk :=
  [c9Chunk 0, c9Chunk 1, c9Chunk 2, c9Chunk 3, c9Chunk 4]

def c9Summarize (c : ContentChunk) : Option SummarizedContent :=
  if c.chunk_index % 2 = 0 then some ⟨"title".toList, "body".toList, []⟩ else none

/-- Witness for C9: five chunks, the oracle fails on chunks 1 and 3 and
succeeds on 0, 2, 4; no duplicates. -/
theorem C9_partial_failures_still_completed_witness :
    (processPdfBackground c9Chunks c9Summarize (fun _ => []) (fun _ => none)).processing_status =
      PDFProcessingStatus.completed ∧
    (processPdfBackground c9Chunks c9Summarize (fun _ => []) (fun _ => none)).total_articles_generated =
      (c9Chunks.filterMap c9Summarize).length -
        ((c9Chunks.filterMap c9Summarize).filter fun s =>
          !((fun _ => ([] : List (String × ℚ))) s).isEmpty).length ∧
    (processPdfBackground c9Chunks c9Summarize (fun _ => []) (fun _ => none)).processing_stats =
      some { total_chunks := c9Chunks.length,
             articles_generated := (c9Chunks.filterMap c9Summarize).length -
               ((c9Chunks.filterMap c9Summarize).filter fun s =>
                 !((fun _ => ([] : List (String × ℚ))) s).isEmpty).length,
             articles_skipped_duplicates :=
               ((c9Chunks.filterMap c9Summarize).filter fun s =>
                 !((fun _ => ([] : List (String × ℚ))) s).isEmpty).length } :=
  C9_partial_failures_still_completed c9Chunks c9Summarize (fun _ => []) (fun _ => none)
    (by decide) (by decide)

end HealthExtractor

namespace HealthExtractor

/-- Witness for C4 at the concrete text `"hi there."` and at the empty text. -/
theorem C4_reading_level_range_witness :
    (1 ≤ estimateReadingLevel ("hi there.".toList) ∧
      estimateReadingLevel ("hi there.".toList) ≤ 12) ∧
    estimateReadingLevel [] = 12 ∧
    estimateReadingLevel ("hi there.".toList) =
      min ((if avgSentenceLength ("hi there.".toList) ≤ 10 then 4
            else if avgSentenceLength ("hi there.".toList) ≤ 15 then 6
            else if avgSentenceLength ("hi there.".toList) ≤ 20 then 8 else 10) +
          complexRatio ("hi there.".toList) * 4) 12 :=
  ⟨(C4_reading_level_range ("hi there.".toList)).1,
    (C4_reading_level_range []).2.1 rfl,
    (C4_reading_level_range ("hi there.".toList)).2.2 ⟨by decide, by decide⟩⟩

end HealthExtractor
